import Mathlib

/-!
Verification of the RAG_Survey_Analysis_Europa survey-processing pipeline
(`notebooks/survey_data_processor.ipynb` and its configuration-driven
transformation engine, documented in `docs/engineers/simple_mapping_guide.md`).

The tabular data model is embedded shallowly: a cell value is numeric, text,
or the "no value" marker (pandas NaN); a row is an association list from
column name to value (a column absent from a row reads as the marker); a
DataFrame carries its column list and its rows.
-/

namespace SurveyProc

/-- A cell value: numeric, text, or the "no value" marker (NaN/null). -/
inductive Value where
  | num (n : Int)
  | str (s : String)
  | na
deriving DecidableEq

/-- A row: association list from column name to cell value. -/
abbrev Row := List (String × Value)

/-- A survey dataset: column names plus rows (pandas DataFrame). -/
structure DataFrame where
  cols : List String
  rows : List Row
deriving DecidableEq

/-- Taxonomy categories used by `ALL_COLUMNS` in the notebook
(`STANDARD`, `LTR`, `DRIVERS`, `METADATA`). -/
inductive Category where
  | STANDARD
  | LTR
  | DRIVERS
  | METADATA
deriving DecidableEq

/-- The `ALL_COLUMNS` column-type dictionary: column name to category. -/
abbrev Taxonomy := List (String × Category)

/-- Python `all_columns_dict.get(col)`: category of a column, if known. -/
def Taxonomy.get (t : Taxonomy) (c : String) : Option Category :=
  (t.find? (fun p => p.1 == c)).map (fun p => p.2)

/-- Python `all_columns_dict.keys()`: the taxonomy's known column names. -/
def Taxonomy.keys (t : Taxonomy) : List String :=
  t.map (fun p => p.1)

/-- A named text-to-numeric mapping dictionary (one entry of
`config/mapping_dictionaries.json`): response label to numeric value. -/
abbrev MappingDict := List (String × Int)

/-- ASCII lower-casing of one character (Python `str.lower` on the ASCII
labels used by the mapping dictionaries). -/
def lowerChar (c : Char) : Char :=
  if 'A' ≤ c ∧ c ≤ 'Z' then Char.ofNat (c.toNat + 32) else c

/-- Whitespace test for trimming (Python `str.strip`). -/
def isSpaceChar (c : Char) : Bool :=
  c == ' ' || c == '\t' || c == '\n' || c == '\r'

/-- Drop leading and trailing whitespace from a character list. -/
def trimChars (l : List Char) : List Char :=
  ((l.dropWhile isSpaceChar).reverse.dropWhile isSpaceChar).reverse

/-- Modelled from the spec: input text is trimmed of leading/trailing
whitespace and case-folded before dictionary lookup
(`simple_mapping_guide.md`, Best Practices 1 and 5; the
`shared/transformations` module itself is not in the repository snapshot). -/
def normalizeLabel (s : String) : String :=
  String.mk ((trimChars s.data).map lowerChar)

/-- Modelled from the spec: dictionary key comparison is normalized on both
sides, so canonical-case keys are matched case-insensitively. -/
def dictLookup (d : MappingDict) (s : String) : Option Int :=
  (d.find? (fun p => normalizeLabel p.1 == normalizeLabel s)).map (fun p => p.2)

/-- Modelled from the spec: the per-value transformation rule of
`transform_survey` (spec 4.3). A "no value" marker is preserved; an
already-numeric value never matches a textual dictionary key and is
preserved; a text value is looked up after normalization — on hit it is
replaced by the dictionary's numeric value, on miss it is preserved. -/
def transformValue (d : MappingDict) : Value → Value
  | Value.na => Value.na
  | Value.num n => Value.num n
  | Value.str s =>
      match dictLookup d s with
      | some n => Value.num n
      | none => Value.str s

/-- The `SimpleSurveyMapper` configuration: the named dictionaries of
`mapping_dictionaries.json` together with the per-survey column mappings and
the `default_mappings` block of `survey_column_mappings.json`. -/
structure MapperConfig where
  dictionaries : List (String × MappingDict)
  surveyMappings : List (String × List (String × String))
  defaultMappings : List (String × String)
deriving DecidableEq

/-- Modelled from the spec: `get_survey_mappings(survey_name)` returns the
explicitly configured column-to-dictionary map, empty if none (spec 4.2). -/
def MapperConfig.getSurveyMappings (cfg : MapperConfig) (survey : String) :
    List (String × String) :=
  ((cfg.surveyMappings.find? (fun p => p.1 == survey)).map (fun p => p.2)).getD []

/-- The named dictionary registered under `name` (empty if unknown). -/
def MapperConfig.getDict (cfg : MapperConfig) (name : String) : MappingDict :=
  ((cfg.dictionaries.find? (fun p => p.1 == name)).map (fun p => p.2)).getD []

/-- Modelled from the spec: `get_effective_mappings(survey_name,
present_columns, include_defaults)` — explicit mappings merged with default
mappings, where a default rule applies only if the column is present, not
explicitly configured for this survey, and `include_defaults` is true;
explicit configuration takes precedence (spec 4.2,
`simple_mapping_guide.md` "Default Mappings"). -/
def MapperConfig.getEffectiveMappings (cfg : MapperConfig) (survey : String)
    (presentColumns : List String) (includeDefaults : Bool) :
    List (String × String) :=
  let explicit := cfg.getSurveyMappings survey
  let defaults :=
    if includeDefaults then
      cfg.defaultMappings.filter (fun p =>
        presentColumns.contains p.1 &&
          !((explicit.map (fun q => q.1)).contains p.1))
    else []
  explicit ++ defaults

/-- One row of `transform_survey`: every cell of a column in the effective
mapping set is transformed with that column's dictionary. -/
def transformRow (cfg : MapperConfig) (eff : List (String × String)) (r : Row) :
    Row :=
  r.map (fun p =>
    match eff.find? (fun m => m.1 == p.1) with
    | some m => (p.1, transformValue (cfg.getDict m.2) p.2)
    | none => p)

/-- Modelled from the spec: `transform_survey(df, survey_name,
include_defaults)` — a new dataset where every column in the effective
mapping set has its values dictionary-resolved (spec 4.3). -/
def MapperConfig.transformSurvey (cfg : MapperConfig) (df : DataFrame)
    (survey : String) (includeDefaults : Bool) : DataFrame :=
  let eff := cfg.getEffectiveMappings survey df.cols includeDefaults
  { df with rows := df.rows.map (transformRow cfg eff) }

/-- The `satisfaction_5_scale` dictionary (`simple_mapping_guide.md`,
Step 1; `config/mapping_dictionaries.json` itself is not in the snapshot). -/
def satisfaction5Scale : MappingDict :=
  [("very dissatisfied", 1), ("dissatisfied", 2), ("neutral", 3),
   ("satisfied", 4), ("very satisfied", 5)]

/-- The `recommendation_10_scale` dictionary: textual NPS scores "0"–"10"
mapped to 0–10 (notebook configuration cell and mapping guide). -/
def recommendation10Scale : MappingDict :=
  [("0", 0), ("1", 1), ("2", 2), ("3", 3), ("4", 4), ("5", 5),
   ("6", 6), ("7", 7), ("8", 8), ("9", 9), ("10", 10)]

/-- The `yes_no_binary` dictionary (notebook configuration cell). -/
def yesNoBinary : MappingDict :=
  [("yes", 1), ("no", 0)]

/-- The columns the pipeline adds itself, exempt from taxonomy validation
(`auto_added_columns` in `validate_columns`). -/
def autoAddedColumns : List String :=
  ["Survey_Name", "Processed_Date"]

/-- Notebook `validate_columns(df, survey_name, all_columns_dict)`:
dataset columns minus the auto-added columns minus the allowed columns; a
non-empty remainder means invalid. Returns `(is_valid, invalid_columns)`. -/
def validateColumns (df : DataFrame) (allColumns : Taxonomy) :
    Bool × List String :=
  let invalid := df.cols.filter (fun c =>
    !(autoAddedColumns.contains c) && !(allColumns.keys.contains c))
  (invalid.isEmpty, invalid)

/-- Python `df[col] = value`: set a column to one value on every row
(adding the column if absent). -/
def setCol (c : String) (v : Value) (df : DataFrame) : DataFrame :=
  { cols := if df.cols.contains c then df.cols else df.cols ++ [c],
    rows := df.rows.map (fun r => (r.filter (fun p => p.1 != c)) ++ [(c, v)]) }

/-- The possible outcomes of the external record acquisition for one survey:
`load_sql_query` raising (e.g. missing SQL file) propagates out of
`execute_query_and_load_data` into the loop's `try`; `pd.read_sql_query`
raising is caught inside `execute_query_and_load_data`; otherwise a
DataFrame is produced. -/
inductive FetchOutcome where
  | fetchError (detail : String)
  | queryError (detail : String)
  | fetched (df : DataFrame)
deriving DecidableEq

/-- Notebook `execute_query_and_load_data(survey_name)`: a raised
load error propagates (`Except.error`); a query error is caught and `None`
is returned; a loaded frame is column-validated — on failure the survey is
skipped (`None`), on success the `Survey_Name` column is added. -/
def executeQueryAndLoadData (allColumns : Taxonomy) (surveyName : String)
    (outcome : FetchOutcome) : Except String (Option DataFrame) :=
  match outcome with
  | FetchOutcome.fetchError d => Except.error d
  | FetchOutcome.queryError _ => Except.ok none
  | FetchOutcome.fetched df =>
      if (validateColumns df allColumns).1 then
        Except.ok (some (setCol "Survey_Name" (Value.str surveyName) df))
      else
        Except.ok none

/-- Notebook `extract_ltr_and_drivers(df, survey_name, all_columns_dict)`, from the
notebook: project onto the present `STANDARD`/`LTR`/`DRIVERS` columns plus
present auto-added columns; return the projection when at least one `LTR`
or `DRIVERS` column is present, `None` otherwise. (Python builds the
relevant column list through `list(set(...))`; deduplication models the
set.) -/
def extractLtrAndDrivers (df : DataFrame) (allColumns : Taxonomy) :
    Option DataFrame :=
  let ltrColumns := (allColumns.filter (fun p =>
    p.2 == Category.LTR && df.cols.contains p.1)).map (fun p => p.1)
  let driverColumns := (allColumns.filter (fun p =>
    p.2 == Category.DRIVERS && df.cols.contains p.1)).map (fun p => p.1)
  let standardColumns := (allColumns.filter (fun p =>
    p.2 == Category.STANDARD && df.cols.contains p.1)).map (fun p => p.1)
  let availableAutoAdded := autoAddedColumns.filter (fun c => df.cols.contains c)
  let relevantColumns :=
    (standardColumns ++ ltrColumns ++ driverColumns ++ availableAutoAdded).dedup
  if 0 < ltrColumns.length ∨ 0 < driverColumns.length then
    some { cols := relevantColumns,
           rows := df.rows.map (fun r =>
             r.filter (fun p => relevantColumns.contains p.1)) }
  else
    none

/-- One `processing_summary` entry built by the loop (the `Processed_Time`
wall-clock field is not modelled). -/
structure SummaryRow where
  surveyName : String
  recordsProcessed : Nat
  columnsCount : Nat
  columnsTransformed : Nat
  hasLtrData : Bool
  hasDriverData : Bool
  processingStatus : String
deriving DecidableEq

/-- The three accumulators of the processing loop: `all_survey_data`,
`nps_driver_data` and `processing_summary`. -/
structure RunState where
  allSurveyData : List DataFrame
  npsDriverData : List DataFrame
  processingSummary : List SummaryRow
deriving DecidableEq

/-- The dataset the loop builds for one successfully loaded, non-empty
survey frame `df0` (already carrying `Survey_Name` from the loader): add
`Survey_Name` and `Processed_Date`, then apply `transform_survey` when the
survey has configured mappings. -/
def surveyProcessedDf (cfg : MapperConfig) (procDate : Value)
    (surveyName : String) (df0 : DataFrame) : DataFrame :=
  let df2 := setCol "Processed_Date" procDate
    (setCol "Survey_Name" (Value.str surveyName) df0)
  if (cfg.getSurveyMappings surveyName).isEmpty then df2
  else cfg.transformSurvey df2 surveyName true

/-- The body of the per-survey loop of the notebook: load (with the `try`
boundary), branch on `df is not None and len(df) > 0`, store the full
dataset, extract the LTR/driver subset, and append exactly one summary
row whose status is `Success`, `No Data`, `Failed to load`, or
`Error: <detail>`. -/
def processSurvey (cfg : MapperConfig) (allColumns : Taxonomy)
    (procDate : Value) (st : RunState) (surveyName : String)
    (outcome : FetchOutcome) : RunState :=
  match executeQueryAndLoadData allColumns surveyName outcome with
  | Except.error d =>
      { st with processingSummary := st.processingSummary ++
          [⟨surveyName, 0, 0, 0, false, false, "Error: " ++ d⟩] }
  | Except.ok none =>
      { st with processingSummary := st.processingSummary ++
          [⟨surveyName, 0, 0, 0, false, false, "Failed to load"⟩] }
  | Except.ok (some df0) =>
      if 0 < df0.rows.length then
        let df3 := surveyProcessedDf cfg procDate surveyName df0
        let subset := extractLtrAndDrivers df3 allColumns
        { allSurveyData := st.allSurveyData ++ [df3],
          npsDriverData := st.npsDriverData ++ subset.toList,
          processingSummary := st.processingSummary ++
            [⟨surveyName, df3.rows.length, df3.cols.length,
              (cfg.getSurveyMappings surveyName).length,
              df3.cols.any (fun c => allColumns.get c == some Category.LTR),
              df3.cols.any (fun c => allColumns.get c == some Category.DRIVERS),
              "Success"⟩] }
      else
        { st with processingSummary := st.processingSummary ++
            [⟨surveyName, 0, 0, 0, false, false, "No Data"⟩] }

/-- The whole processing loop over the configured `SURVEYS` list, each
survey paired with its record-source outcome, starting from the empty
accumulators. -/
def processRun (cfg : MapperConfig) (allColumns : Taxonomy) (procDate : Value)
    (surveys : List (String × FetchOutcome)) : RunState :=
  surveys.foldl
    (fun st p => processSurvey cfg allColumns procDate st p.1 p.2) ⟨[], [], []⟩

/-- Model of `pd.concat(frames, ignore_index=True, sort=False)`: column set is the
union in order of first appearance; rows are concatenated in order (a row
lacking a column reads as the "no value" marker in this model). -/
def concatFrames (frames : List DataFrame) : DataFrame :=
  { cols := frames.foldl
      (fun acc f => acc ++ f.cols.filter (fun c => !(acc.contains c))) [],
    rows := (frames.map (fun f => f.rows)).flatten }

/-- The `combined_all_surveys` output: written only when `all_survey_data`
is non-empty (`if all_survey_data:`). -/
def combinedAllSurveys (st : RunState) : Option DataFrame :=
  if st.allSurveyData.isEmpty then none
  else some (concatFrames st.allSurveyData)

/-- The `combined_ltr_drivers` output: written only when `nps_driver_data`
is non-empty (`if nps_driver_data:`). -/
def combinedLtrDrivers (st : RunState) : Option DataFrame :=
  if st.npsDriverData.isEmpty then none
  else some (concatFrames st.npsDriverData)

/-- How a file write is performed. `pandas.DataFrame.to_csv(path)` opens
the target path and writes it in place (`direct`); an atomic replacement
would instead write a temporary path and rename it over the target
(`tempRename`) or copy an existing file over it (`copyFrom`). -/
inductive WriteKind where
  | direct
  | tempRename
  | copyFrom (src : String)
deriving DecidableEq

/-- One file write performed by the output-generation cell. -/
structure WriteEvent where
  path : String
  kind : WriteKind
deriving DecidableEq

/-- The output-generation cell of the notebook: for each of the LTR/driver
and all-surveys datasets, when its accumulator is non-empty, one archive
write (timestamp-suffixed name) followed by one current write (fixed name);
the processing summary is always written to both locations. Every write is
`to_csv` straight to the target path. -/
def outputGeneration (st : RunState) (timestamp : String) : List WriteEvent :=
  (if st.npsDriverData.isEmpty then [] else
    [⟨"../rag_outputs/archive/Combined_LTR_Drivers_" ++ timestamp ++ ".csv",
      WriteKind.direct⟩,
     ⟨"../rag_outputs/current/combined_ltr_drivers.csv", WriteKind.direct⟩]) ++
  (if st.allSurveyData.isEmpty then [] else
    [⟨"../rag_outputs/archive/Combined_All_Surveys_" ++ timestamp ++ ".csv",
      WriteKind.direct⟩,
     ⟨"../rag_outputs/current/combined_all_surveys.csv", WriteKind.direct⟩]) ++
  [⟨"../rag_outputs/archive/Processing_Summary_" ++ timestamp ++ ".csv",
    WriteKind.direct⟩,
   ⟨"../rag_outputs/current/processing_summary.csv", WriteKind.direct⟩]

/-- The full dataset one survey contributes to `all_survey_data`: present
exactly when loading and validation succeed and the frame is non-empty. -/
def surveyResultDf (cfg : MapperConfig) (allColumns : Taxonomy)
    (procDate : Value) (surveyName : String) (outcome : FetchOutcome) :
    Option DataFrame :=
  match executeQueryAndLoadData allColumns surveyName outcome with
  | Except.error _ => none
  | Except.ok none => none
  | Except.ok (some df0) =>
      if 0 < df0.rows.length then
        some (surveyProcessedDf cfg procDate surveyName df0)
      else none

/-- The LTR/driver subset one survey contributes to `nps_driver_data`. -/
def surveyLtrDf (cfg : MapperConfig) (allColumns : Taxonomy) (procDate : Value)
    (surveyName : String) (outcome : FetchOutcome) : Option DataFrame :=
  (surveyResultDf cfg allColumns procDate surveyName outcome).bind
    (fun df => extractLtrAndDrivers df allColumns)

/-- The summary row one survey contributes to `processing_summary`. -/
def surveySummaryRow (cfg : MapperConfig) (allColumns : Taxonomy)
    (procDate : Value) (surveyName : String) (outcome : FetchOutcome) :
    SummaryRow :=
  match executeQueryAndLoadData allColumns surveyName outcome with
  | Except.error d => ⟨surveyName, 0, 0, 0, false, false, "Error: " ++ d⟩
  | Except.ok none => ⟨surveyName, 0, 0, 0, false, false, "Failed to load"⟩
  | Except.ok (some df0) =>
      if 0 < df0.rows.length then
        let df3 := surveyProcessedDf cfg procDate surveyName df0
        ⟨surveyName, df3.rows.length, df3.cols.length,
         (cfg.getSurveyMappings surveyName).length,
         df3.cols.any (fun c => allColumns.get c == some Category.LTR),
         df3.cols.any (fun c => allColumns.get c == some Category.DRIVERS),
         "Success"⟩
      else ⟨surveyName, 0, 0, 0, false, false, "No Data"⟩

theorem processSurvey_eq (cfg : MapperConfig) (tax : Taxonomy) (d : Value)
    (st : RunState) (name : String) (o : FetchOutcome) :
    processSurvey cfg tax d st name o =
      ⟨st.allSurveyData ++ (surveyResultDf cfg tax d name o).toList,
       st.npsDriverData ++ (surveyLtrDf cfg tax d name o).toList,
       st.processingSummary ++ [surveySummaryRow cfg tax d name o]⟩ := by
  unfold processSurvey surveyLtrDf surveyResultDf surveySummaryRow
  cases hx : executeQueryAndLoadData tax name o with
  | error e => simp
  | ok odf =>
      cases odf with
      | none => simp
      | some df0 =>
          by_cases h : 0 < df0.rows.length
          · simp [h]
          · simp [h]

theorem processRun_from (cfg : MapperConfig) (tax : Taxonomy) (d : Value)
    (ss : List (String × FetchOutcome)) (st : RunState) :
    ss.foldl (fun acc p => processSurvey cfg tax d acc p.1 p.2) st =
      ⟨st.allSurveyData ++ ss.filterMap (fun p => surveyResultDf cfg tax d p.1 p.2),
       st.npsDriverData ++ ss.filterMap (fun p => surveyLtrDf cfg tax d p.1 p.2),
       st.processingSummary ++ ss.map (fun p => surveySummaryRow cfg tax d p.1 p.2)⟩ := by
  induction ss generalizing st with
  | nil => simp
  | cons a tl ih =>
      rw [List.foldl_cons, processSurvey_eq, ih]
      simp only [List.filterMap_cons, List.map_cons]
      cases surveyResultDf cfg tax d a.1 a.2 <;>
        cases surveyLtrDf cfg tax d a.1 a.2 <;>
          simp

/-- The loop's three accumulators are exactly the per-survey contributions:
each survey's contributions depend only on that survey's own outcome. -/
theorem processRun_eq (cfg : MapperConfig) (tax : Taxonomy) (d : Value)
    (ss : List (String × FetchOutcome)) :
    processRun cfg tax d ss =
      ⟨ss.filterMap (fun p => surveyResultDf cfg tax d p.1 p.2),
       ss.filterMap (fun p => surveyLtrDf cfg tax d p.1 p.2),
       ss.map (fun p => surveySummaryRow cfg tax d p.1 p.2)⟩ := by
  unfold processRun
  rw [processRun_from]
  simp

theorem setCol_rows_length (c : String) (v : Value) (df : DataFrame) :
    (setCol c v df).rows.length = df.rows.length := by
  simp [setCol]

theorem transformSurvey_cols (cfg : MapperConfig) (df : DataFrame)
    (survey : String) (b : Bool) :
    (cfg.transformSurvey df survey b).cols = df.cols := rfl

theorem transformSurvey_rows_length (cfg : MapperConfig) (df : DataFrame)
    (survey : String) (b : Bool) :
    (cfg.transformSurvey df survey b).rows.length = df.rows.length := by
  simp [MapperConfig.transformSurvey]

theorem surveyProcessedDf_rows_length (cfg : MapperConfig) (d : Value)
    (name : String) (df0 : DataFrame) :
    (surveyProcessedDf cfg d name df0).rows.length = df0.rows.length := by
  unfold surveyProcessedDf
  split
  · simp [setCol_rows_length]
  · simp [transformSurvey_rows_length, setCol_rows_length]

/-- The row count a survey contributes to `combined_all_surveys` per the
spec: its dataset's row count when it was fetched and passed column
validation, zero when it failed to load or failed validation. -/
def validatedRowCount (allColumns : Taxonomy) (outcome : FetchOutcome) : Nat :=
  match outcome with
  | FetchOutcome.fetched df =>
      if (validateColumns df allColumns).1 then df.rows.length else 0
  | _ => 0

/-- The rows one survey contributes to the full combined output. -/
def contributedRows (cfg : MapperConfig) (allColumns : Taxonomy)
    (procDate : Value) (p : String × FetchOutcome) : List Row :=
  ((surveyResultDf cfg allColumns procDate p.1 p.2).map
    (fun df => df.rows)).getD []

/-- The rows of an optionally written combined output (no file means no
rows). -/
def rowsOfOutput : Option DataFrame → List Row
  | some df => df.rows
  | none => []

theorem rowsOfOutput_combinedAllSurveys (st : RunState) :
    rowsOfOutput (combinedAllSurveys st)
      = (st.allSurveyData.map (fun f => f.rows)).flatten := by
  unfold combinedAllSurveys
  by_cases h : st.allSurveyData.isEmpty
  · rw [List.isEmpty_iff] at h
    simp [h, rowsOfOutput]
  · simp [h, rowsOfOutput, concatFrames]

theorem flatten_filterMap_contributions (cfg : MapperConfig) (tax : Taxonomy)
    (d : Value) (ss : List (String × FetchOutcome)) :
    ((ss.filterMap (fun p => surveyResultDf cfg tax d p.1 p.2)).map
        (fun f => f.rows)).flatten
      = (ss.map (contributedRows cfg tax d)).flatten := by
  induction ss with
  | nil => rfl
  | cons a tl ih =>
      rw [List.filterMap_cons, List.map_cons]
      cases h : surveyResultDf cfg tax d a.1 a.2 with
      | none => simp [contributedRows, h, ih]
      | some df => simp [contributedRows, h, ih]

theorem contributedRows_length (cfg : MapperConfig) (tax : Taxonomy)
    (d : Value) (name : String) (o : FetchOutcome) :
    (contributedRows cfg tax d (name, o)).length = validatedRowCount tax o := by
  unfold contributedRows surveyResultDf validatedRowCount
    executeQueryAndLoadData
  cases o with
  | fetchError e => simp
  | queryError e => simp
  | fetched df =>
      by_cases hv : (validateColumns df tax).1
      · by_cases h0 : 0 < (setCol "Survey_Name" (Value.str name) df).rows.length
        · have h0' : 0 < df.rows.length := by
            rw [setCol_rows_length] at h0
            exact h0
          simp [hv, h0', surveyProcessedDf_rows_length, setCol_rows_length]
        · have hz : df.rows.length = 0 := by
            have := setCol_rows_length "Survey_Name" (Value.str name) df
            omega
          simp [hv, h0, hz]
      · simp [hv]

/-- Python dict-style lookup in a column-to-dictionary-name mapping. -/
def lookupMapping (l : List (String × String)) (c : String) : Option String :=
  (l.find? (fun p => p.1 == c)).map (fun p => p.2)

theorem find?_key_filter (l : List (String × String)) (q : String → Bool)
    (c : String) :
    (l.filter (fun p => q p.1)).find? (fun p => p.1 == c)
      = if q c then l.find? (fun p => p.1 == c) else none := by
  induction l with
  | nil => simp
  | cons a tl ih =>
      by_cases hac : a.1 = c
      · subst hac
        by_cases hqa : q a.1
        · simp [hqa, List.find?_cons]
        · simp [hqa, ih]
      · have hbeq : (a.1 == c) = false := by
          simp [hac]
        by_cases hqa : q a.1
        · simp [hqa, List.find?_cons, hbeq, ih]
        · simp [hqa, List.find?_cons, hbeq, ih]

theorem lookupMapping_eq_none_iff (l : List (String × String)) (c : String) :
    lookupMapping l c = none ↔ ((l.map (fun q => q.1)).contains c) = false := by
  unfold lookupMapping
  constructor
  · intro h
    rw [Option.map_eq_none'] at h
    by_contra hc
    rw [Bool.not_eq_false, List.elem_iff, List.mem_map] at hc
    obtain ⟨p, hp, hpc⟩ := hc
    have := List.find?_eq_none.mp h p hp
    simp [hpc] at this
  · intro h
    rw [Option.map_eq_none', List.find?_eq_none]
    intro p hp
    simp only [Bool.not_eq_true, beq_eq_false_iff_ne, ne_eq]
    intro hpc
    rw [← Bool.not_eq_true, List.elem_iff, List.mem_map] at h
    exact h ⟨p, hp, hpc⟩

/-- With unique keys (a Python dict), category lookup agrees with entry
membership. -/
theorem taxonomy_get_iff (t : Taxonomy) (hnd : t.keys.Nodup) {c : String}
    {cat : Category} :
    t.get c = some cat ↔ (c, cat) ∈ t := by
  induction t with
  | nil => simp [Taxonomy.get]
  | cons a tl ih =>
      obtain ⟨a1, a2⟩ := a
      rw [Taxonomy.keys, List.map_cons, List.nodup_cons] at hnd
      obtain ⟨ha, htl⟩ := hnd
      by_cases hac : a1 = c
      · subst hac
        have hfind : Taxonomy.get ((a1, a2) :: tl) a1 = some a2 := by
          rw [Taxonomy.get, List.find?_cons_of_pos _ (by simp)]
          rfl
        rw [hfind]
        constructor
        · intro h
          have h2 : a2 = cat := Option.some.inj h
          subst h2
          exact List.mem_cons_self _ _
        · intro h
          rcases List.mem_cons.mp h with h1 | h2
          · have h3 : cat = a2 := congrArg Prod.snd h1
            rw [h3]
          · exact absurd (List.mem_map.mpr ⟨(a1, cat), h2, rfl⟩) ha
      · have hfind : Taxonomy.get ((a1, a2) :: tl) c = Taxonomy.get tl c := by
          rw [Taxonomy.get, List.find?_cons_of_neg _ (by simp [hac]),
            Taxonomy.get]
        rw [hfind, ih htl]
        constructor
        · intro h
          exact List.mem_cons_of_mem _ h
        · intro h
          rcases List.mem_cons.mp h with h1 | h2
          · exact absurd (congrArg Prod.fst h1).symm hac
          · exact h2

theorem transformValue_idem (d : MappingDict) (v : Value) :
    transformValue d (transformValue d v) = transformValue d v := by
  cases v with
  | num n => rfl
  | na => rfl
  | str s =>
      cases h : dictLookup d s with
      | some n => simp [transformValue, h]
      | none => simp [transformValue, h]

theorem transformRow_idem (cfg : MapperConfig) (eff : List (String × String))
    (r : Row) :
    transformRow cfg eff (transformRow cfg eff r) = transformRow cfg eff r := by
  unfold transformRow
  rw [List.map_map]
  apply List.map_congr_left
  intro p _
  simp only [Function.comp]
  cases h : eff.find? (fun m => m.1 == p.1) with
  | none => simp [h]
  | some m => simp [h, transformValue_idem]

/-- Claim C3: for every configured column and cell value, the transformation
preserves a "no value" input unchanged; a non-missing input is trimmed,
case-folded and looked up in the configured dictionary; on a hit the cell
becomes the dictionary's numeric value and on a miss the original value is
preserved; with `satisfaction_5_scale` the column
`["Very Satisfied", "  dissatisfied ", "Somewhat OK"]` becomes
`[5, 2, "Somewhat OK"]`. -/
theorem claim_C3 :
    (∀ d : MappingDict, transformValue d Value.na = Value.na)
    ∧ (∀ (d : MappingDict) (n : Int),
        transformValue d (Value.num n) = Value.num n)
    ∧ (∀ (d : MappingDict) (s : String) (n : Int),
        dictLookup d s = some n → transformValue d (Value.str s) = Value.num n)
    ∧ (∀ (d : MappingDict) (s : String),
        dictLookup d s = none → transformValue d (Value.str s) = Value.str s)
    ∧ (∀ (d : MappingDict) (s t : String),
        normalizeLabel s = normalizeLabel t → dictLookup d s = dictLookup d t)
    ∧ MapperConfig.transformSurvey
        ⟨[("satisfaction_5_scale", satisfaction5Scale)],
         [("survey_A", [("Satisfaction_Level", "satisfaction_5_scale")])], []⟩
        ⟨["Satisfaction_Level"],
         [[("Satisfaction_Level", Value.str "Very Satisfied")],
          [("Satisfaction_Level", Value.str "  dissatisfied ")],
          [("Satisfaction_Level", Value.str "Somewhat OK")]]⟩
        "survey_A" true
      = ⟨["Satisfaction_Level"],
         [[("Satisfaction_Level", Value.num 5)],
          [("Satisfaction_Level", Value.num 2)],
          [("Satisfaction_Level", Value.str "Somewhat OK")]]⟩ := by
  refine ⟨fun d => rfl, fun d n => rfl, ?_, ?_, ?_, by decide⟩
  · intro d s n h
    simp [transformValue, h]
  · intro d s h
    simp [transformValue, h]
  · intro d s t h
    unfold dictLookup
    simp only [h]

/-- Closed instance of claim C3's conditional parts at concrete inputs. -/
theorem claim_C3_witness :
    transformValue satisfaction5Scale (Value.str "  dissatisfied ")
        = Value.num 2
    ∧ transformValue satisfaction5Scale (Value.str "Somewhat OK")
        = Value.str "Somewhat OK"
    ∧ dictLookup yesNoBinary " YES " = dictLookup yesNoBinary "yes" := by
  refine ⟨?_, ?_, ?_⟩
  · exact claim_C3.2.2.1 satisfaction5Scale "  dissatisfied " 2 (by decide)
  · exact claim_C3.2.2.2.1 satisfaction5Scale "Somewhat OK" (by decide)
  · exact claim_C3.2.2.2.2.1 yesNoBinary " YES " "yes" (by decide)

/-- Claim C4: `validate_columns` returns `(is_valid, invalid_columns)` with
`invalid_columns` the dataset's columns minus the bookkeeping columns
`Survey_Name`/`Processed_Date` minus the taxonomy's known names, and
`is_valid` true exactly when that remainder is empty; one unrecognized
non-bookkeeping column makes the dataset invalid with exactly that column
reported, and a dataset whose only non-taxonomy columns are the bookkeeping
columns is valid. -/
theorem claim_C4 :
    (∀ (df : DataFrame) (tax : Taxonomy) (c : String),
      c ∈ (validateColumns df tax).2 ↔
        c ∈ df.cols ∧ c ∉ autoAddedColumns ∧ c ∉ tax.keys)
    ∧ (∀ (df : DataFrame) (tax : Taxonomy),
      (validateColumns df tax).1 = true ↔ (validateColumns df tax).2 = [])
    ∧ (∀ (df : DataFrame) (tax : Taxonomy) (c : String),
      c ∈ df.cols → c ∉ autoAddedColumns → c ∉ tax.keys →
      (∀ x ∈ df.cols, x ∉ autoAddedColumns → x ∉ tax.keys → x = c) →
      (validateColumns df tax).1 = false ∧
        (∀ x, x ∈ (validateColumns df tax).2 ↔ x = c))
    ∧ (∀ (df : DataFrame) (tax : Taxonomy),
      (∀ x ∈ df.cols, x ∉ autoAddedColumns → x ∈ tax.keys) →
      (validateColumns df tax).1 = true) := by
  have hmem : ∀ (df : DataFrame) (tax : Taxonomy) (c : String),
      c ∈ (validateColumns df tax).2 ↔
        c ∈ df.cols ∧ c ∉ autoAddedColumns ∧ c ∉ tax.keys := by
    intro df tax c
    simp [validateColumns, List.mem_filter, List.elem_iff]
  have hvalid : ∀ (df : DataFrame) (tax : Taxonomy),
      (validateColumns df tax).1 = true ↔ (validateColumns df tax).2 = [] := by
    intro df tax
    rw [validateColumns]
    exact List.isEmpty_iff
  refine ⟨hmem, hvalid, ?_, ?_⟩
  · intro df tax c hc hauto hkeys huniq
    have hcmem : c ∈ (validateColumns df tax).2 :=
      (hmem df tax c).mpr ⟨hc, hauto, hkeys⟩
    constructor
    · rcases hval : (validateColumns df tax).1 with _ | _
      · rfl
      · rw [(hvalid df tax).mp hval] at hcmem
        exact absurd hcmem (List.not_mem_nil c)
    · intro x
      constructor
      · intro hx
        obtain ⟨hx1, hx2, hx3⟩ := (hmem df tax x).mp hx
        exact huniq x hx1 hx2 hx3
      · intro hx
        rw [hx]
        exact hcmem
  · intro df tax hall
    rw [hvalid df tax, List.eq_nil_iff_forall_not_mem]
    intro x hx
    obtain ⟨hx1, hx2, hx3⟩ := (hmem df tax x).mp hx
    exact hx3 (hall x hx1 hx2)

/-- Closed instance of claim C4's conditional parts: the taxonomy knows
`ResponseID` and `Timestamp`; a frame with the unrecognized `Weird_Column`
is invalid with exactly that column reported, and a frame whose extra
columns are only the bookkeeping ones is valid. -/
theorem claim_C4_witness :
    (validateColumns ⟨["ResponseID", "Weird_Column"], []⟩
        [("ResponseID", Category.STANDARD),
         ("Timestamp", Category.STANDARD)]).1 = false
    ∧ (∀ x, x ∈ (validateColumns ⟨["ResponseID", "Weird_Column"], []⟩
        [("ResponseID", Category.STANDARD),
         ("Timestamp", Category.STANDARD)]).2 ↔ x = "Weird_Column")
    ∧ (validateColumns ⟨["ResponseID", "Survey_Name", "Processed_Date"], []⟩
        [("ResponseID", Category.STANDARD),
         ("Timestamp", Category.STANDARD)]).1 = true := by
  refine ⟨?_, ?_, ?_⟩
  · exact (claim_C4.2.2.1 _ _ "Weird_Column" (by decide) (by decide)
      (by decide) (by decide)).1
  · exact (claim_C4.2.2.1 _ _ "Weird_Column" (by decide) (by decide)
      (by decide) (by decide)).2
  · exact claim_C4.2.2.2 _ _ (by decide)

/-- Claim C9: applying the transformation twice with the same configuration
equals applying it once, including for dictionaries with numeric-string
keys such as `recommendation_10_scale`. -/
theorem claim_C9 :
    (∀ (cfg : MapperConfig) (df : DataFrame) (survey : String) (incl : Bool),
      cfg.transformSurvey (cfg.transformSurvey df survey incl) survey incl
        = cfg.transformSurvey df survey incl)
    ∧ (MapperConfig.transformSurvey
        ⟨[("recommendation_10_scale", recommendation10Scale)],
         [("survey_N", [("NPS_Score", "recommendation_10_scale")])], []⟩
        (MapperConfig.transformSurvey
          ⟨[("recommendation_10_scale", recommendation10Scale)],
           [("survey_N", [("NPS_Score", "recommendation_10_scale")])], []⟩
          ⟨["NPS_Score"],
           [[("NPS_Score", Value.str "10")], [("NPS_Score", Value.str "7")],
            [("NPS_Score", Value.na)]]⟩
          "survey_N" true)
        "survey_N" true
      = ⟨["NPS_Score"],
         [[("NPS_Score", Value.num 10)], [("NPS_Score", Value.num 7)],
          [("NPS_Score", Value.na)]]⟩) := by
  constructor
  · intro cfg df survey incl
    unfold MapperConfig.transformSurvey
    simp only [List.map_map]
    congr 1
    apply List.map_congr_left
    intro r _
    simp only [Function.comp]
    exact transformRow_idem cfg _ r
  · decide

/-- A per-survey status as the loop records it: `Success`, `No Data` (the
spec's `NoData`), `Failed to load` (the spec's `FailedToLoad`), or
`Error: <detail>`. -/
def isRunStatus (s : String) : Prop :=
  s = "Success" ∨ s = "No Data" ∨ s = "Failed to load"
    ∨ ∃ d, s = "Error: " ++ d

theorem surveySummaryRow_surveyName (cfg : MapperConfig) (tax : Taxonomy)
    (d : Value) (name : String) (o : FetchOutcome) :
    (surveySummaryRow cfg tax d name o).surveyName = name := by
  unfold surveySummaryRow
  cases executeQueryAndLoadData tax name o with
  | error e => rfl
  | ok odf =>
      cases odf with
      | none => rfl
      | some df0 =>
          by_cases h : 0 < df0.rows.length
          · simp [h]
          · simp [h]

theorem surveySummaryRow_status (cfg : MapperConfig) (tax : Taxonomy)
    (d : Value) (name : String) (o : FetchOutcome) :
    isRunStatus (surveySummaryRow cfg tax d name o).processingStatus := by
  unfold surveySummaryRow
  cases executeQueryAndLoadData tax name o with
  | error e => exact Or.inr (Or.inr (Or.inr ⟨e, rfl⟩))
  | ok odf =>
      cases odf with
      | none => exact Or.inr (Or.inr (Or.inl rfl))
      | some df0 =>
          by_cases h : 0 < df0.rows.length
          · simp only [h, if_true]
            exact Or.inl rfl
          · simp only [h, if_false]
            exact Or.inr (Or.inl rfl)

/-- Claim C1: every run yields exactly one summary row per attempted survey,
in order; each row is a function of that survey's own outcome, so a failure
in one survey never suppresses the rows of later surveys; a raised exception
becomes an `Error: <detail>` row; and every status is one of the four
statuses (`Success`, `No Data`/`NoData`, `Failed to load`/`FailedToLoad`,
`Error: <detail>`). -/
theorem claim_C1 (cfg : MapperConfig) (tax : Taxonomy) (d : Value)
    (surveys : List (String × FetchOutcome)) :
    (processRun cfg tax d surveys).processingSummary
        = surveys.map (fun p => surveySummaryRow cfg tax d p.1 p.2)
    ∧ (processRun cfg tax d surveys).processingSummary.length = surveys.length
    ∧ (processRun cfg tax d surveys).processingSummary.map
        (fun r => r.surveyName) = surveys.map (fun p => p.1)
    ∧ (∀ name detail,
        surveySummaryRow cfg tax d name (FetchOutcome.fetchError detail)
          = ⟨name, 0, 0, 0, false, false, "Error: " ++ detail⟩)
    ∧ ∀ r ∈ (processRun cfg tax d surveys).processingSummary,
        isRunStatus r.processingStatus := by
  have h1 : (processRun cfg tax d surveys).processingSummary
      = surveys.map (fun p => surveySummaryRow cfg tax d p.1 p.2) := by
    rw [processRun_eq]
  refine ⟨h1, by rw [h1, List.length_map], ?_, fun name detail => rfl, ?_⟩
  · rw [h1, List.map_map]
    apply List.map_congr_left
    intro p _
    exact surveySummaryRow_surveyName cfg tax d p.1 p.2
  · intro r hr
    rw [h1, List.mem_map] at hr
    obtain ⟨p, _, hp⟩ := hr
    rw [← hp]
    exact surveySummaryRow_status cfg tax d p.1 p.2

/-- Closed instance of claim C1 on a two-survey run whose first survey
raises an exception: the second survey still produces its row, and each
status is one of the four statuses. -/
theorem claim_C1_witness :
    (processRun ⟨[], [], []⟩ [] Value.na
        [("survey_1", FetchOutcome.fetchError "boom"),
         ("survey_2", FetchOutcome.queryError "db down")]).processingSummary.length
      = 2
    ∧ isRunStatus (SummaryRow.processingStatus
        (surveySummaryRow ⟨[], [], []⟩ [] Value.na "survey_1"
          (FetchOutcome.fetchError "boom"))) := by
  constructor
  · exact (claim_C1 ⟨[], [], []⟩ [] Value.na
      [("survey_1", FetchOutcome.fetchError "boom"),
       ("survey_2", FetchOutcome.queryError "db down")]).2.1
  · exact (claim_C1 ⟨[], [], []⟩ [] Value.na
      [("survey_1", FetchOutcome.fetchError "boom"),
       ("survey_2", FetchOutcome.queryError "db down")]).2.2.2.2
      (surveySummaryRow ⟨[], [], []⟩ [] Value.na "survey_1"
        (FetchOutcome.fetchError "boom"))
      (by decide)

/-- Claim C5: the rows of `combined_all_surveys` are the concatenation, in
input processing order, of each survey's contributed rows (no sorting or
deduplication), and its row count is the sum of the row counts of the
survey datasets that passed validation — surveys that failed validation,
failed to load, or returned no rows contribute zero. -/
theorem claim_C5 (cfg : MapperConfig) (tax : Taxonomy) (d : Value)
    (surveys : List (String × FetchOutcome)) :
    rowsOfOutput (combinedAllSurveys (processRun cfg tax d surveys))
        = (surveys.map (contributedRows cfg tax d)).flatten
    ∧ (rowsOfOutput (combinedAllSurveys (processRun cfg tax d surveys))).length
        = (surveys.map (fun p => validatedRowCount tax p.2)).sum := by
  have h1 : rowsOfOutput (combinedAllSurveys (processRun cfg tax d surveys))
      = (surveys.map (contributedRows cfg tax d)).flatten := by
    rw [rowsOfOutput_combinedAllSurveys, processRun_eq]
    exact flatten_filterMap_contributions cfg tax d surveys
  refine ⟨h1, ?_⟩
  rw [h1, List.length_flatten, List.map_map]
  congr 1
  apply List.map_congr_left
  intro p _
  exact contributedRows_length cfg tax d p.1 p.2

/-- Claim C10: the three accumulators decompose survey-by-survey, and any
survey whose summary status is not `Success` contributes nothing to either
combined output. -/
theorem claim_C10 (cfg : MapperConfig) (tax : Taxonomy) (d : Value)
    (surveys : List (String × FetchOutcome)) :
    (processRun cfg tax d surveys).allSurveyData
        = surveys.filterMap (fun p => surveyResultDf cfg tax d p.1 p.2)
    ∧ (processRun cfg tax d surveys).npsDriverData
        = surveys.filterMap (fun p => surveyLtrDf cfg tax d p.1 p.2)
    ∧ ∀ (name : String) (o : FetchOutcome),
        (surveySummaryRow cfg tax d name o).processingStatus ≠ "Success" →
          surveyResultDf cfg tax d name o = none
          ∧ surveyLtrDf cfg tax d name o = none := by
  refine ⟨by rw [processRun_eq], by rw [processRun_eq], ?_⟩
  intro name o hne
  unfold surveySummaryRow at hne
  unfold surveyLtrDf surveyResultDf
  cases hx : executeQueryAndLoadData tax name o with
  | error e => simp
  | ok odf =>
      cases odf with
      | none => simp
      | some df0 =>
          rw [hx] at hne
          by_cases h : 0 < df0.rows.length
          · simp only [h, if_true] at hne
            exact absurd rfl hne
          · simp [h]

/-- Closed instance of claim C10's conditional part: a survey whose query
failed has a non-`Success` status and contributes nothing. -/
theorem claim_C10_witness :
    surveyResultDf ⟨[], [], []⟩ [] Value.na "survey_1"
        (FetchOutcome.queryError "db down") = none
    ∧ surveyLtrDf ⟨[], [], []⟩ [] Value.na "survey_1"
        (FetchOutcome.queryError "db down") = none :=
  (claim_C10 ⟨[], [], []⟩ [] Value.na []).2.2 "survey_1"
    (FetchOutcome.queryError "db down") (by decide)

theorem mem_catColumns (tax : Taxonomy) (df : DataFrame) (cat : Category)
    (c : String) :
    (c ∈ (tax.filter (fun p => p.2 == cat && df.cols.contains p.1)).map
        (fun p => p.1))
      ↔ (c, cat) ∈ tax ∧ c ∈ df.cols := by
  rw [List.mem_map]
  constructor
  · rintro ⟨⟨p1, p2⟩, hp, rfl⟩
    rw [List.mem_filter] at hp
    obtain ⟨hmem, hcond⟩ := hp
    rw [Bool.and_eq_true, beq_iff_eq] at hcond
    obtain ⟨hcat, hcon⟩ := hcond
    subst hcat
    exact ⟨hmem, List.elem_iff.mp hcon⟩
  · rintro ⟨hmem, hcols⟩
    refine ⟨(c, cat), ?_, rfl⟩
    rw [List.mem_filter]
    refine ⟨hmem, ?_⟩
    rw [Bool.and_eq_true, beq_iff_eq]
    exact ⟨rfl, List.elem_iff.mpr hcols⟩

/-- Claim C6: `extract_ltr_and_drivers` returns `None` exactly when the
dataset has no present `LTR` or `DRIVERS` column (in particular for a
dataset of only `STANDARD`/`METADATA` columns); otherwise it returns the
projection onto the present `STANDARD`/`LTR`/`DRIVERS` columns plus present
bookkeeping columns; a survey for which it returns `None` is excluded from
the LTR/driver combined output but still appears in the full combined
output. -/
theorem claim_C6 (tax : Taxonomy) (hnd : tax.keys.Nodup) (df : DataFrame) :
    (extractLtrAndDrivers df tax = none ↔
      ¬ ∃ c ∈ df.cols, tax.get c = some Category.LTR
        ∨ tax.get c = some Category.DRIVERS)
    ∧ (∀ f, extractLtrAndDrivers df tax = some f →
        (∀ c, c ∈ f.cols ↔ c ∈ df.cols ∧
          (tax.get c = some Category.STANDARD
            ∨ tax.get c = some Category.LTR
            ∨ tax.get c = some Category.DRIVERS
            ∨ c ∈ autoAddedColumns))
        ∧ f.rows.length = df.rows.length)
    ∧ ((∀ c ∈ df.cols, tax.get c = some Category.STANDARD
          ∨ tax.get c = some Category.METADATA) →
        extractLtrAndDrivers df tax = none)
    ∧ (∀ (cfg : MapperConfig) (d : Value) (name : String) (o : FetchOutcome)
          (df3 : DataFrame),
        surveyResultDf cfg tax d name o = some df3 →
          df3 ∈ (processRun cfg tax d [(name, o)]).allSurveyData
          ∧ (extractLtrAndDrivers df3 tax = none →
              (processRun cfg tax d [(name, o)]).npsDriverData = [])) := by
  have hcond : ∀ (g : DataFrame),
      ((0 < ((tax.filter (fun p => p.2 == Category.LTR
            && g.cols.contains p.1)).map (fun p => p.1)).length
        ∨ 0 < ((tax.filter (fun p => p.2 == Category.DRIVERS
            && g.cols.contains p.1)).map (fun p => p.1)).length)
        ↔ ∃ c ∈ g.cols, tax.get c = some Category.LTR
            ∨ tax.get c = some Category.DRIVERS) := by
    intro g
    rw [List.length_pos_iff_exists_mem, List.length_pos_iff_exists_mem]
    constructor
    · rintro (⟨c, hc⟩ | ⟨c, hc⟩)
      · obtain ⟨hmem, hcols⟩ := (mem_catColumns tax g _ c).mp hc
        exact ⟨c, hcols, Or.inl ((taxonomy_get_iff tax hnd).mpr hmem)⟩
      · obtain ⟨hmem, hcols⟩ := (mem_catColumns tax g _ c).mp hc
        exact ⟨c, hcols, Or.inr ((taxonomy_get_iff tax hnd).mpr hmem)⟩
    · rintro ⟨c, hcols, hget | hget⟩
      · exact Or.inl ⟨c, (mem_catColumns tax g _ c).mpr
          ⟨(taxonomy_get_iff tax hnd).mp hget, hcols⟩⟩
      · exact Or.inr ⟨c, (mem_catColumns tax g _ c).mpr
          ⟨(taxonomy_get_iff tax hnd).mp hget, hcols⟩⟩
  have hnone : extractLtrAndDrivers df tax = none ↔
      ¬ ∃ c ∈ df.cols, tax.get c = some Category.LTR
        ∨ tax.get c = some Category.DRIVERS := by
    unfold extractLtrAndDrivers
    simp only []
    split
    · rename_i h
      simp only [reduceCtorEq, false_iff]
      exact fun hn => hn ((hcond df).mp h)
    · rename_i h
      simp only [true_iff]
      exact fun hx => h ((hcond df).mpr hx)
  refine ⟨hnone, ?_, ?_, ?_⟩
  · intro f hf
    unfold extractLtrAndDrivers at hf
    simp only [] at hf
    split at hf
    · rw [Option.some_inj] at hf
      constructor
      · intro c
        rw [← hf]
        simp only [List.mem_dedup, List.mem_append]
        constructor
        · rintro (((hc | hc) | hc) | hc)
          · obtain ⟨hmem, hcols⟩ := (mem_catColumns tax df _ c).mp hc
            exact ⟨hcols, Or.inl ((taxonomy_get_iff tax hnd).mpr hmem)⟩
          · obtain ⟨hmem, hcols⟩ := (mem_catColumns tax df _ c).mp hc
            exact ⟨hcols, Or.inr (Or.inl ((taxonomy_get_iff tax hnd).mpr hmem))⟩
          · obtain ⟨hmem, hcols⟩ := (mem_catColumns tax df _ c).mp hc
            exact ⟨hcols,
              Or.inr (Or.inr (Or.inl ((taxonomy_get_iff tax hnd).mpr hmem)))⟩
          · rw [List.mem_filter] at hc
            exact ⟨List.elem_iff.mp hc.2, Or.inr (Or.inr (Or.inr hc.1))⟩
        · rintro ⟨hcols, hget | hget | hget | hauto⟩
          · exact Or.inl (Or.inl (Or.inl ((mem_catColumns tax df _ c).mpr
              ⟨(taxonomy_get_iff tax hnd).mp hget, hcols⟩)))
          · exact Or.inl (Or.inl (Or.inr ((mem_catColumns tax df _ c).mpr
              ⟨(taxonomy_get_iff tax hnd).mp hget, hcols⟩)))
          · exact Or.inl (Or.inr ((mem_catColumns tax df _ c).mpr
              ⟨(taxonomy_get_iff tax hnd).mp hget, hcols⟩))
          · refine Or.inr ?_
            rw [List.mem_filter]
            exact ⟨hauto, List.elem_iff.mpr hcols⟩
      · rw [← hf]
        simp
    · exact absurd hf (by simp)
  · intro hall
    rw [hnone]
    rintro ⟨c, hcols, hget | hget⟩
    · rcases hall c hcols with h | h
      · rw [hget] at h
        exact absurd (Option.some.inj h) (by intro hh; cases hh)
      · rw [hget] at h
        exact absurd (Option.some.inj h) (by intro hh; cases hh)
    · rcases hall c hcols with h | h
      · rw [hget] at h
        exact absurd (Option.some.inj h) (by intro hh; cases hh)
      · rw [hget] at h
        exact absurd (Option.some.inj h) (by intro hh; cases hh)
  · intro cfg d name o df3 hres
    rw [processRun_eq]
    constructor
    · simp [List.filterMap_cons, hres]
    · intro hnone3
      simp [List.filterMap_cons, surveyLtrDf, hres, hnone3]

/-- Closed instance of claim C6 on a taxonomy with one `LTR`, one `DRIVERS`,
one `STANDARD` and one `METADATA` column: a frame with only
`STANDARD`/`METADATA` columns yields `None`, and a frame with the `LTR`
column yields the projection without the `METADATA` column. -/
theorem claim_C6_witness :
    extractLtrAndDrivers
        ⟨["ResponseID", "Demographics_Age"], []⟩
        [("ResponseID", Category.STANDARD), ("NPS_Score", Category.LTR),
         ("Satisfaction_Rating", Category.DRIVERS),
         ("Demographics_Age", Category.METADATA)] = none
    ∧ (∀ f, extractLtrAndDrivers
        ⟨["ResponseID", "NPS_Score", "Demographics_Age"], []⟩
        [("ResponseID", Category.STANDARD), ("NPS_Score", Category.LTR),
         ("Satisfaction_Rating", Category.DRIVERS),
         ("Demographics_Age", Category.METADATA)] = some f →
        ("NPS_Score" ∈ f.cols ∧ "Demographics_Age" ∉ f.cols)) := by
  constructor
  · exact (claim_C6
      [("ResponseID", Category.STANDARD), ("NPS_Score", Category.LTR),
       ("Satisfaction_Rating", Category.DRIVERS),
       ("Demographics_Age", Category.METADATA)] (by decide)
      ⟨["ResponseID", "Demographics_Age"], []⟩).2.2.1 (by decide)
  · intro f hf
    have h := ((claim_C6
      [("ResponseID", Category.STANDARD), ("NPS_Score", Category.LTR),
       ("Satisfaction_Rating", Category.DRIVERS),
       ("Demographics_Age", Category.METADATA)] (by decide)
      ⟨["ResponseID", "NPS_Score", "Demographics_Age"], []⟩).2.1 f hf).1
    constructor
    · exact (h "NPS_Score").mpr (by decide)
    · intro hmem
      have := (h "Demographics_Age").mp hmem
      revert this
      decide

/-- Claim C7: a column's effective mapping comes from a default rule exactly
when the column is present in the data, not explicitly configured for the
survey, and `include_defaults` is true; explicit configuration always takes
precedence; the `NPS_Score` → `recommendation_10_scale` default is not
applied when the survey explicitly maps `NPS_Score` elsewhere. -/
theorem claim_C7 :
    (∀ (cfg : MapperConfig) (survey : String) (present : List String)
        (incl : Bool) (c e : String),
      lookupMapping (cfg.getSurveyMappings survey) c = some e →
        lookupMapping (cfg.getEffectiveMappings survey present incl) c
          = some e)
    ∧ (∀ (cfg : MapperConfig) (survey : String) (present : List String)
        (incl : Bool) (c : String),
      lookupMapping (cfg.getSurveyMappings survey) c = none →
        lookupMapping (cfg.getEffectiveMappings survey present incl) c
          = (if incl && present.contains c
             then lookupMapping cfg.defaultMappings c else none))
    ∧ (lookupMapping
        (MapperConfig.getEffectiveMappings
          ⟨[("recommendation_10_scale", recommendation10Scale),
            ("satisfaction_5_scale", satisfaction5Scale)],
           [("survey_explicit", [("NPS_Score", "satisfaction_5_scale")])],
           [("NPS_Score", "recommendation_10_scale")]⟩
          "survey_plain" ["NPS_Score"] true) "NPS_Score"
        = some "recommendation_10_scale"
      ∧ lookupMapping
        (MapperConfig.getEffectiveMappings
          ⟨[("recommendation_10_scale", recommendation10Scale),
            ("satisfaction_5_scale", satisfaction5Scale)],
           [("survey_explicit", [("NPS_Score", "satisfaction_5_scale")])],
           [("NPS_Score", "recommendation_10_scale")]⟩
          "survey_explicit" ["NPS_Score"] true) "NPS_Score"
        = some "satisfaction_5_scale"
      ∧ lookupMapping
        (MapperConfig.getEffectiveMappings
          ⟨[("recommendation_10_scale", recommendation10Scale),
            ("satisfaction_5_scale", satisfaction5Scale)],
           [("survey_explicit", [("NPS_Score", "satisfaction_5_scale")])],
           [("NPS_Score", "recommendation_10_scale")]⟩
          "survey_plain" ["NPS_Score"] false) "NPS_Score" = none
      ∧ lookupMapping
        (MapperConfig.getEffectiveMappings
          ⟨[("recommendation_10_scale", recommendation10Scale),
            ("satisfaction_5_scale", satisfaction5Scale)],
           [("survey_explicit", [("NPS_Score", "satisfaction_5_scale")])],
           [("NPS_Score", "recommendation_10_scale")]⟩
          "survey_plain" [] true) "NPS_Score" = none) := by
  refine ⟨?_, ?_, by decide, by decide, by decide, by decide⟩
  · intro cfg survey present incl c e h
    unfold MapperConfig.getEffectiveMappings
    unfold lookupMapping at h ⊢
    simp only []
    rw [List.find?_append]
    cases hf : (cfg.getSurveyMappings survey).find? (fun p => p.1 == c) with
    | none =>
        rw [hf] at h
        exact absurd h (by simp)
    | some p =>
        rw [hf] at h
        rw [Option.or]
        exact h
  · intro cfg survey present incl c h
    have hcon := (lookupMapping_eq_none_iff (cfg.getSurveyMappings survey) c).mp h
    unfold lookupMapping at h
    rw [Option.map_eq_none'] at h
    unfold MapperConfig.getEffectiveMappings lookupMapping
    simp only []
    rw [List.find?_append, h, Option.none_or]
    cases incl with
    | false => simp
    | true =>
        rw [if_pos rfl]
        rw [find?_key_filter cfg.defaultMappings
          (fun x => present.contains x
            && !((( cfg.getSurveyMappings survey).map (fun q => q.1)).contains x)) c]
        rw [hcon]
        cases hp : present.contains c with
        | false => simp [hp]
        | true => simp [hp]

/-- Closed instance of claim C7's conditional parts at the `NPS_Score`
default-mapping configuration. -/
theorem claim_C7_witness :
    lookupMapping
        (MapperConfig.getEffectiveMappings
          ⟨[], [("survey_explicit", [("NPS_Score", "satisfaction_5_scale")])],
           [("NPS_Score", "recommendation_10_scale")]⟩
          "survey_explicit" ["NPS_Score"] true) "NPS_Score"
      = some "satisfaction_5_scale"
    ∧ lookupMapping
        (MapperConfig.getEffectiveMappings
          ⟨[], [("survey_explicit", [("NPS_Score", "satisfaction_5_scale")])],
           [("NPS_Score", "recommendation_10_scale")]⟩
          "survey_plain" ["NPS_Score"] true) "NPS_Score"
      = (if true && (["NPS_Score"].contains "NPS_Score")
         then lookupMapping [("NPS_Score", "recommendation_10_scale")]
           "NPS_Score" else none) := by
  constructor
  · exact claim_C7.1
      ⟨[], [("survey_explicit", [("NPS_Score", "satisfaction_5_scale")])],
       [("NPS_Score", "recommendation_10_scale")]⟩
      "survey_explicit" ["NPS_Score"] true "NPS_Score"
      "satisfaction_5_scale" (by decide)
  · exact claim_C7.2.1
      ⟨[], [("survey_explicit", [("NPS_Score", "satisfaction_5_scale")])],
       [("NPS_Score", "recommendation_10_scale")]⟩
      "survey_plain" ["NPS_Score"] true "NPS_Score" (by decide)

/-- Counterexample to claim C2 as stated: a survey whose dataset carries the
out-of-taxonomy column `Weird_Column` gets summary status `Failed to load` —
the very same status a failed query produces — and not
`Error: column validation failed` nor any `Error: <detail>` status, so the
summary does not record a validation-failure status. -/
theorem claim_C2_counterexample :
    (surveySummaryRow ⟨[], [], []⟩ [("ResponseID", Category.STANDARD)]
        Value.na "survey_1"
        (FetchOutcome.fetched ⟨["ResponseID", "Weird_Column"],
          [[("ResponseID", Value.str "r1")]]⟩)).processingStatus
      = "Failed to load"
    ∧ (¬ ∃ detail, (surveySummaryRow ⟨[], [], []⟩
        [("ResponseID", Category.STANDARD)] Value.na "survey_1"
        (FetchOutcome.fetched ⟨["ResponseID", "Weird_Column"],
          [[("ResponseID", Value.str "r1")]]⟩)).processingStatus
      = "Error: " ++ detail)
    ∧ (surveySummaryRow ⟨[], [], []⟩ [("ResponseID", Category.STANDARD)]
        Value.na "survey_1" (FetchOutcome.queryError "db down")).processingStatus
      = (surveySummaryRow ⟨[], [], []⟩ [("ResponseID", Category.STANDARD)]
        Value.na "survey_1"
        (FetchOutcome.fetched ⟨["ResponseID", "Weird_Column"],
          [[("ResponseID", Value.str "r1")]]⟩)).processingStatus := by
  refine ⟨by decide, ?_, by decide⟩
  rintro ⟨detail, hd⟩
  have h0 : (surveySummaryRow ⟨[], [], []⟩ [("ResponseID", Category.STANDARD)]
      Value.na "survey_1"
      (FetchOutcome.fetched ⟨["ResponseID", "Weird_Column"],
        [[("ResponseID", Value.str "r1")]]⟩)).processingStatus
      = "Failed to load" := by decide
  rw [h0] at hd
  have h1 : ("Failed to load").data = ("Error: " ++ detail).data :=
    congrArg String.data hd
  rw [String.data_append] at h1
  have h2 := congrArg List.head? h1
  simp at h2

/-- Claim C2 (amended): a survey whose dataset fails column validation is
excluded from both combined outputs, the run continues with the remaining
surveys, and its summary row records the generic status `Failed to load`
(validation failure is not distinguished from a load failure). -/
theorem claim_C2 (cfg : MapperConfig) (tax : Taxonomy) (d : Value)
    (name : String) (df : DataFrame)
    (hval : (validateColumns df tax).1 = false) :
    surveyResultDf cfg tax d name (FetchOutcome.fetched df) = none
    ∧ surveyLtrDf cfg tax d name (FetchOutcome.fetched df) = none
    ∧ (surveySummaryRow cfg tax d name
        (FetchOutcome.fetched df)).processingStatus = "Failed to load"
    ∧ ∀ pre post,
        (processRun cfg tax d
            (pre ++ (name, FetchOutcome.fetched df) :: post)).allSurveyData
          = (processRun cfg tax d (pre ++ post)).allSurveyData
        ∧ (processRun cfg tax d
            (pre ++ (name, FetchOutcome.fetched df) :: post)).npsDriverData
          = (processRun cfg tax d (pre ++ post)).npsDriverData
        ∧ (processRun cfg tax d
            (pre ++ (name, FetchOutcome.fetched df) :: post)).processingSummary.length
          = pre.length + 1 + post.length := by
  have hexec : executeQueryAndLoadData tax name (FetchOutcome.fetched df)
      = Except.ok none := by
    unfold executeQueryAndLoadData
    simp [hval]
  have hres : surveyResultDf cfg tax d name (FetchOutcome.fetched df)
      = none := by
    unfold surveyResultDf
    rw [hexec]
  have hltr : surveyLtrDf cfg tax d name (FetchOutcome.fetched df)
      = none := by
    unfold surveyLtrDf
    rw [hres]
    rfl
  have hsum : (surveySummaryRow cfg tax d name
      (FetchOutcome.fetched df)).processingStatus = "Failed to load" := by
    unfold surveySummaryRow
    rw [hexec]
  refine ⟨hres, hltr, hsum, ?_⟩
  intro pre post
  refine ⟨?_, ?_, ?_⟩
  · rw [processRun_eq, processRun_eq]
    simp [List.filterMap_append, List.filterMap_cons, hres]
  · rw [processRun_eq, processRun_eq]
    simp [List.filterMap_append, List.filterMap_cons, hltr]
  · rw [processRun_eq]
    simp [List.length_append]
    omega

/-- Closed instance of claim C2's amended statement at the `Weird_Column`
dataset. -/
theorem claim_C2_witness :
    surveyResultDf ⟨[], [], []⟩ [("ResponseID", Category.STANDARD)] Value.na
        "survey_1" (FetchOutcome.fetched ⟨["ResponseID", "Weird_Column"],
          [[("ResponseID", Value.str "r1")]]⟩) = none
    ∧ surveyLtrDf ⟨[], [], []⟩ [("ResponseID", Category.STANDARD)] Value.na
        "survey_1" (FetchOutcome.fetched ⟨["ResponseID", "Weird_Column"],
          [[("ResponseID", Value.str "r1")]]⟩) = none := by
  have h := claim_C2 ⟨[], [], []⟩ [("ResponseID", Category.STANDARD)] Value.na
    "survey_1" ⟨["ResponseID", "Weird_Column"],
      [[("ResponseID", Value.str "r1")]]⟩ (by decide)
  exact ⟨h.1, h.2.1⟩

/-- Counterexample to claim C8 as stated: at a concrete run with data, the
output-generation cell performs exactly six writes — archive and current
for each dataset — and every one, including each fixed-name current file,
is a plain in-place `to_csv` write (`WriteKind.direct`); no write uses a
temporary path plus rename and none copies the archive file, so the current
files are not replaced atomically. -/
theorem claim_C8_counterexample :
    outputGeneration ⟨[⟨[], []⟩], [⟨[], []⟩], []⟩ "20240101_000000"
      = [⟨"../rag_outputs/archive/Combined_LTR_Drivers_20240101_000000.csv",
          WriteKind.direct⟩,
         ⟨"../rag_outputs/current/combined_ltr_drivers.csv",
          WriteKind.direct⟩,
         ⟨"../rag_outputs/archive/Combined_All_Surveys_20240101_000000.csv",
          WriteKind.direct⟩,
         ⟨"../rag_outputs/current/combined_all_surveys.csv",
          WriteKind.direct⟩,
         ⟨"../rag_outputs/archive/Processing_Summary_20240101_000000.csv",
          WriteKind.direct⟩,
         ⟨"../rag_outputs/current/processing_summary.csv",
          WriteKind.direct⟩]
    ∧ ((outputGeneration ⟨[⟨[], []⟩], [⟨[], []⟩], []⟩
        "20240101_000000").all
          (fun e => e.kind == WriteKind.direct)) = true
    ∧ WriteKind.direct ≠ WriteKind.tempRename := by
  refine ⟨by decide, by decide, by decide⟩

/-- Claim C8 (amended): each of the three datasets that is written is
written twice — once to a timestamp-suffixed archive file and once to a
fixed-name current file — both by plain in-place writes (no temporary path
plus rename, so no atomic-replace guarantee); the processing summary is
written on every run, even if every survey fails; the full and LTR/driver
outputs are omitted entirely when nothing succeeded. -/
theorem claim_C8 (st : RunState) (ts : String) :
    (WriteEvent.mk ("../rag_outputs/archive/Processing_Summary_" ++ ts
        ++ ".csv") WriteKind.direct ∈ outputGeneration st ts
      ∧ WriteEvent.mk "../rag_outputs/current/processing_summary.csv"
        WriteKind.direct ∈ outputGeneration st ts)
    ∧ (st.allSurveyData ≠ [] →
        WriteEvent.mk ("../rag_outputs/archive/Combined_All_Surveys_" ++ ts
            ++ ".csv") WriteKind.direct ∈ outputGeneration st ts
        ∧ WriteEvent.mk "../rag_outputs/current/combined_all_surveys.csv"
            WriteKind.direct ∈ outputGeneration st ts)
    ∧ (st.npsDriverData ≠ [] →
        WriteEvent.mk ("../rag_outputs/archive/Combined_LTR_Drivers_" ++ ts
            ++ ".csv") WriteKind.direct ∈ outputGeneration st ts
        ∧ WriteEvent.mk "../rag_outputs/current/combined_ltr_drivers.csv"
            WriteKind.direct ∈ outputGeneration st ts)
    ∧ (st.allSurveyData = [] → st.npsDriverData = [] →
        outputGeneration st ts
          = [⟨"../rag_outputs/archive/Processing_Summary_" ++ ts ++ ".csv",
              WriteKind.direct⟩,
             ⟨"../rag_outputs/current/processing_summary.csv",
              WriteKind.direct⟩])
    ∧ (∀ e ∈ outputGeneration st ts, e.kind = WriteKind.direct) := by
  unfold outputGeneration
  refine ⟨⟨?_, ?_⟩, ?_, ?_, ?_, ?_⟩
  · cases h1 : st.npsDriverData.isEmpty <;>
      cases h2 : st.allSurveyData.isEmpty <;> simp
  · cases h1 : st.npsDriverData.isEmpty <;>
      cases h2 : st.allSurveyData.isEmpty <;> simp
  · intro hall
    have h2 : st.allSurveyData.isEmpty = false := by
      rw [List.isEmpty_eq_false]
      exact hall
    cases h1 : st.npsDriverData.isEmpty <;> simp [h2]
  · intro hnps
    have h1 : st.npsDriverData.isEmpty = false := by
      rw [List.isEmpty_eq_false]
      exact hnps
    cases h2 : st.allSurveyData.isEmpty <;> simp [h1]
  · intro hall hnps
    have h1 : st.npsDriverData.isEmpty = true := by
      rw [List.isEmpty_iff]
      exact hnps
    have h2 : st.allSurveyData.isEmpty = true := by
      rw [List.isEmpty_iff]
      exact hall
    simp [h1, h2]
  · intro e he
    cases h1 : st.npsDriverData.isEmpty <;>
      cases h2 : st.allSurveyData.isEmpty <;>
        rw [h1, h2] at he <;> simp at he
    all_goals first
      | (rcases he with he | he | he | he | he | he <;> simp [he])
      | (rcases he with he | he | he | he | he <;> simp [he])
      | (rcases he with he | he | he | he <;> simp [he])
      | (rcases he with he | he | he <;> simp [he])
      | (rcases he with he | he <;> simp [he])

/-- Closed instance of claim C8's amended statement: a run with data writes
the all-surveys dataset to archive and current, and the current
processing-summary write is a direct in-place write. -/
theorem claim_C8_witness :
    (WriteEvent.mk
        ("../rag_outputs/archive/Combined_All_Surveys_" ++ "20240101_000000"
          ++ ".csv") WriteKind.direct
      ∈ outputGeneration ⟨[⟨[], []⟩], [], []⟩ "20240101_000000"
    ∧ WriteEvent.mk "../rag_outputs/current/combined_all_surveys.csv"
        WriteKind.direct
      ∈ outputGeneration ⟨[⟨[], []⟩], [], []⟩ "20240101_000000")
    ∧ (WriteEvent.mk "../rag_outputs/current/processing_summary.csv"
        WriteKind.direct).kind = WriteKind.direct := by
  constructor
  · exact (claim_C8 ⟨[⟨[], []⟩], [], []⟩ "20240101_000000").2.1 (by decide)
  · exact (claim_C8 ⟨[⟨[], []⟩], [], []⟩ "20240101_000000").2.2.2.2
      (WriteEvent.mk "../rag_outputs/current/processing_summary.csv"
        WriteKind.direct) (by decide)

end SurveyProc

